import Mathlib

/-!
Verification development for the boda2 training harness.

Shallow embedding of the two source files:
  * `src/main.py`        — module composer, checkpoint save/restore, artifact unpacking
  * `boda/model/customModel_example.py` — `MPRAregressionModel`

Python machine-level details are modelled as follows: scalar configuration
values become `PyVal` (integers as `ℤ`, floats as exact rationals `ℚ`,
strings, booleans); Python `//` becomes `Int.fdiv` (both are floor
division); fallible operations return explicit outcome types.
-/

/-- A scalar Python value as it appears in configuration dictionaries. -/
inductive PyVal where
  | int (i : ℤ)
  | rat (q : ℚ)
  | str (s : String)
  | bool (b : Bool)
deriving DecidableEq

/-- Whether `needle` occurs at the start of `haystack` (on character lists). -/
def startsWithL : List Char → List Char → Bool
  | [], _ => true
  | _ :: _, [] => false
  | a :: as, b :: bs => a == b && startsWithL as bs

/-- Whether `needle` occurs contiguously anywhere in the second list. -/
def containsSub (needle : List Char) : List Char → Bool
  | [] => needle.isEmpty
  | c :: rest => startsWithL needle (c :: rest) || containsSub needle rest

/-- Python's substring test `needle in haystack` on strings. -/
def pyIn (needle haystack : String) : Bool :=
  containsSub needle.toList haystack.toList

/-- `os.path.join` for the path shapes used in `main.py`. -/
def os_path_join (a b : String) : String :=
  if b.startsWith "/" then b
  else if a = "" then b
  else if a.endsWith "/" then a ++ b
  else a ++ "/" ++ b

/-- `os.path.basename`: the component after the last slash. -/
def os_path_basename (p : String) : String :=
  String.mk ((p.toList.reverse.takeWhile (fun c => c != '/')).reverse)

/-- `MPRAregressionModel.conv1D_OutDim` (customModel_example.py lines 181-183):
`(L_in + 2*padding - dilation*(kernel_size - 1) - 1)//stride + 1`.
Python `//` is floor division, embedded as `Int.fdiv`.  The Python
function defaults `padding=0, dilation=1`; callers pass those explicitly here. -/
def conv1D_OutDim (L_in kernel_size stride padding dilation : ℤ) : ℤ :=
  (L_in + 2 * padding - dilation * (kernel_size - 1) - 1).fdiv stride + 1

/-- The hyperparameter dictionary consumed by `MPRAregressionModel.__init__`
(keys as in `add_model_specific_args`; note the source's `numChannles` key spelling). -/
structure ModelParams where
  LR : ℚ
  momentum : ℚ
  weightDecay : ℚ
  dropout : ℚ
  optimizer : String
  seqLen : ℤ
  numFeatures : ℤ
  targetLen : ℤ
  numChannles1 : ℤ
  kernelSize1 : ℤ
  stride1 : ℤ
  padding1 : ℤ
  dilation1 : ℤ
  poolKernel1 : ℤ
  poolStride1 : ℤ
  numChannles2 : ℤ
  kernelSize2 : ℤ
  stride2 : ℤ
  padding2 : ℤ
  dilation2 : ℤ
  poolKernel2 : ℤ
  poolStride2 : ℤ
  linearLayerLen1 : ℤ
  linearLayerLen2 : ℤ
deriving DecidableEq

/-- Defaults of `add_model_specific_args` (customModel_example.py lines 29-62). -/
def defaultModelParams : ModelParams :=
  { LR := 1/2000
    momentum := 9/10
    weightDecay := 1/100000000
    dropout := 1/5
    optimizer := "Adam"
    seqLen := 600
    numFeatures := 4
    targetLen := 1
    numChannles1 := 20
    kernelSize1 := 6
    stride1 := 3
    padding1 := 0
    dilation1 := 1
    poolKernel1 := 4
    poolStride1 := 2
    numChannles2 := 10
    kernelSize2 := 4
    stride2 := 2
    padding2 := 0
    dilation2 := 1
    poolKernel2 := 2
    poolStride2 := 2
    linearLayerLen1 := 50
    linearLayerLen2 := 10 }

/-- `self.convLayerLen1` as computed in `__init__` (lines 89-94). -/
def convLayerLen1 (p : ModelParams) : ℤ :=
  conv1D_OutDim p.seqLen p.kernelSize1 p.stride1 p.padding1 p.dilation1

/-- `self.poolLayerLen1` (lines 98-100); `conv1D_OutDim` is called without
`padding`/`dilation`, so the Python defaults `0` and `1` apply. -/
def poolLayerLen1 (p : ModelParams) : ℤ :=
  conv1D_OutDim (convLayerLen1 p) p.poolKernel1 p.poolStride1 0 1

/-- `self.convLayerLen2` (lines 107-111). -/
def convLayerLen2 (p : ModelParams) : ℤ :=
  conv1D_OutDim (poolLayerLen1 p) p.kernelSize2 p.stride2 p.padding2 p.dilation2

/-- `self.poolLayerLen2` (lines 115-117); again padding `0`, dilation `1`. -/
def poolLayerLen2 (p : ModelParams) : ℤ :=
  conv1D_OutDim (convLayerLen2 p) p.poolKernel2 p.poolStride2 0 1

/-- The in-features of the first fully-connected layer:
`nn.Linear(self.poolLayerLen2 * self.numChannels2, self.linearLayerLen1)` (line 136). -/
def linear1_in_features (p : ModelParams) : ℤ :=
  poolLayerLen2 p * p.numChannles2

/-- An optimizer instance as configured by `configure_optimizers`.
Fixed numeric constants are the exact decimals appearing in the source. -/
inductive Optimizer where
  | Adam (lr beta1 beta2 eps weight_decay : ℚ)
  | RMSprop (lr alpha eps weight_decay momentum : ℚ) (centered : Bool)
deriving DecidableEq

/-- Result of `configure_optimizers`: either an optimizer, or the
`UnboundLocalError` raised at `return optimizer` when neither branch
assigned the local variable. -/
inductive ConfigureResult where
  | ok (o : Optimizer)
  | unboundLocalError
deriving DecidableEq

/-- `configure_optimizers` (customModel_example.py lines 169-177).  The source
has `if self.optimizer == 'Adam': ... elif self.optimizer == 'RMS': ...`
with no else branch, then `return optimizer`; for any other string the local
`optimizer` is unbound at the return. -/
def configure_optimizers (p : ModelParams) : ConfigureResult :=
  if p.optimizer = "Adam" then
    .ok (.Adam p.LR (9/10) (999/1000) (1/100000000) p.weightDecay)
  else if p.optimizer = "RMS" then
    .ok (.RMSprop p.LR (99/100) (1/100000000) p.weightDecay p.momentum true)
  else
    .unboundLocalError

/-- `F.mse_loss` with the default mean reduction, on flattened tensors
modelled as rational lists. -/
def mse_loss (input target : List ℚ) : ℚ :=
  (((input.zip target).map (fun ab => (ab.1 - ab.2) ^ 2)).sum) / (input.length : ℚ)

/-- Outcome of one Lightning step: a computed loss, or an `AttributeError`
raised while reading a missing attribute of the given name. -/
inductive StepResult where
  | loss (l : ℚ)
  | attributeError (n : String)
deriving DecidableEq

/-- `training_step` (lines 150-155): `loss = F.mse_loss(self(x), y)`.
The model's forward pass is passed in as `forward`. -/
def training_step (forward : List ℚ → List ℚ) (batch : List ℚ × List ℚ) : StepResult :=
  .loss (mse_loss (forward batch.1) batch.2)

/-- `validation_step` (lines 157-161): same `F.mse_loss(self(x), y)`. -/
def validation_step (forward : List ℚ → List ℚ) (batch : List ℚ × List ℚ) : StepResult :=
  .loss (mse_loss (forward batch.1) batch.2)

/-- `test_step` (lines 163-167): computes `y_hat = self(x)` and then evaluates
`self.loss(y_hat, y)`.  No attribute `loss` is ever assigned on the class, its
instances, or its Lightning/nn.Module bases, so the attribute lookup raises
`AttributeError` before any loss is computed. -/
def test_step (forward : List ℚ → List ℚ) (batch : List ℚ × List ℚ) : StepResult :=
  .attributeError "loss"

/-! ### Python attribute model and the module composer (main.py lines 26-30) -/

/-- A Python class for attribute-lookup purposes: its `__name__` and its
`__dict__` restricted to plain data attributes. -/
structure PyClass where
  name : String
  dict : List (String × PyVal)
deriving DecidableEq

/-- A Python object: its instance `__dict__` and the method resolution order
of its (current) class, each class carrying its own `__dict__`. -/
structure PyObj where
  dict : List (String × PyVal)
  mro : List PyClass
deriving DecidableEq

/-- Class-level attribute lookup along the MRO: first class dict that binds
the name wins. -/
def lookupClassDicts : List PyClass → String → Option PyVal
  | [], _ => none
  | c :: rest, n =>
    match c.dict.lookup n with
    | some v => some v
    | none => lookupClassDicts rest n

/-- Python attribute read for plain (non-descriptor) values: the instance
`__dict__` is consulted before the class dictionaries along the MRO. -/
def getattro (o : PyObj) (n : String) : Option PyVal :=
  match o.dict.lookup n with
  | some v => some v
  | none => lookupClassDicts o.mro n

/-- The module composer, main.py lines 26-30:
`model.__class__ = type('BODA_module', (model_module, graph_module),
vars(graph_module.process_args(args)))`.
The instance `__dict__` is untouched; the new class's own `__dict__` is the
graph hyperparameter record, and the MRO continues with the model class then
the graph class. -/
def composeModule (model : PyObj) (model_module graph_module : PyClass)
    (graph_hparams : List (String × PyVal)) : PyObj :=
  { dict := model.dict
    mro := ⟨"BODA_module", graph_hparams⟩ :: model_module :: graph_module :: [] }

/-- Instance `__dict__` produced by `MPRAregressionModel.__init__`
(customModel_example.py lines 68-123), in assignment order.  The tensor
attribute `example_input_array` and the submodules `convLayers`/`linearLayers`
are not scalar configuration values and are omitted. -/
def MPRAregressionModel_instance_dict (p : ModelParams) : List (String × PyVal) :=
  [ ("LR", .rat p.LR)
  , ("momentum", .rat p.momentum)
  , ("weightDecay", .rat p.weightDecay)
  , ("dropout", .rat p.dropout)
  , ("optimizer", .str p.optimizer)
  , ("seqLen", .int p.seqLen)
  , ("numFeatures", .int p.numFeatures)
  , ("targetLen", .int p.targetLen)
  , ("numChannels1", .int p.numChannles1)
  , ("kernelSize1", .int p.kernelSize1)
  , ("stride1", .int p.stride1)
  , ("padding1", .int p.padding1)
  , ("dilation1", .int p.dilation1)
  , ("convLayerLen1", .int (convLayerLen1 p))
  , ("poolKernel1", .int p.poolKernel1)
  , ("poolStride1", .int p.poolStride1)
  , ("poolLayerLen1", .int (poolLayerLen1 p))
  , ("numChannels2", .int p.numChannles2)
  , ("kernelSize2", .int p.kernelSize2)
  , ("stride2", .int p.stride2)
  , ("padding2", .int p.padding2)
  , ("dilation2", .int p.dilation2)
  , ("convLayerLen2", .int (convLayerLen2 p))
  , ("poolKernel2", .int p.poolKernel2)
  , ("poolStride2", .int p.poolStride2)
  , ("poolLayerLen2", .int (poolLayerLen2 p))
  , ("linearLayerLen1", .int p.linearLayerLen1)
  , ("linearLayerLen2", .int p.linearLayerLen2) ]

/-- The `MPRAregressionModel` class object (its class dict holds only methods,
no scalar data attributes). -/
def MPRA_class : PyClass := ⟨"MPRAregressionModel", []⟩

/-- A freshly constructed `MPRAregressionModel` instance. -/
def MPRAregressionModel_init (p : ModelParams) : PyObj :=
  ⟨MPRAregressionModel_instance_dict p, [MPRA_class]⟩

/-- An example graph class, as resolved from `boda.graph`. -/
def exGraphClass : PyClass := ⟨"CNNBasicTraining", []⟩

/-- A second, distinct example graph class. -/
def exGraphClassB : PyClass := ⟨"CNNTransferLearning", []⟩

/-- Example graph hyperparameters: one name colliding with the model's
`seqLen` and one fresh name. -/
def exGraphHparams : List (String × PyVal) :=
  [("seqLen", .int 999), ("epochs", .int 5)]

/-! ### Checkpoint save and restore (main.py `_save_model` / `model_fn`) -/

/-- A parsed-arguments record (the flat view of the argparse result). -/
abbrev Args := List (String × PyVal)

/-- A module's extracted hyperparameter record (`vars` of the namespace
returned by `process_args`). -/
abbrev Hparams := List (String × PyVal)

/-- A weight blob: tensor name to flattened weight values. -/
abbrev StateDict := List (String × List ℚ)

/-- A data/model/graph module class as used by the training driver: its
`__name__` and its `process_args` extractor. -/
structure ModuleClass where
  name : String
  process_args : Args → Hparams

/-- The dictionary passed to `torch.save` in `_save_model`
(main.py lines 42-52).  `timestamp` and `random_tag` are produced by
`time.strftime` / `random.randint` and enter here as inputs. -/
structure SaveDict where
  data_module : String
  data_hparams : Hparams
  model_module : String
  model_hparams : Hparams
  graph_module : String
  graph_hparams : Hparams
  model_state_dict : StateDict
  timestamp : String
  random_tag : ℤ
deriving DecidableEq

/-- The checkpoint record built by `_save_model` from the three module
classes, the trained model's `state_dict()`, and the parsed args. -/
def save_model_dict (dataM modelM graphM : ModuleClass) (model_state : StateDict)
    (args : Args) (timestamp : String) (random_tag : ℤ) : SaveDict :=
  { data_module := dataM.name
    data_hparams := dataM.process_args args
    model_module := modelM.name
    model_hparams := modelM.process_args args
    graph_module := graphM.name
    graph_hparams := graphM.process_args args
    model_state_dict := model_state
    timestamp := timestamp
    random_tag := random_tag }

/-- The archive deposit step of `_save_model` (main.py lines 62-69): either a
`gsutil cp` upload or a local `shutil.copy`. -/
inductive DepositAction where
  | gsutilUpload (cmd : List String)
  | localCopy (src dst : String)
deriving DecidableEq

/-- `_save_model` deposits the tarball by upload exactly when
`'gs://' in artifact_path`; otherwise it copies locally. -/
def save_model_deposit (artifact_path tmpdirname filename : String) : DepositAction :=
  if pyIn "gs://" artifact_path then
    .gsutilUpload ["gsutil", "cp", os_path_join tmpdirname filename,
      os_path_join artifact_path filename]
  else
    .localCopy (os_path_join tmpdirname filename) artifact_path

/-- Whether a deposit action is the cloud upload branch. -/
def isGsutilUpload : DepositAction → Bool
  | .gsutilUpload _ => true
  | .localCopy _ _ => false

/-- A model class registered in `boda.model`, for `getattr` lookup by name:
constructing it from hyperparameters yields an instance of that class whose
initial weights are some function of the hyperparameters. -/
structure RegisteredModel where
  name : String
  initWeights : Hparams → StateDict

/-- A constructed model instance: its class name, stored hyperparameters,
current weights, and train/eval mode flag. -/
structure ModelInstance where
  cls : String
  hparams : Hparams
  state_dict : StateDict
  training : Bool
deriving DecidableEq

/-- `model_module(**vars(hparams))`: instantiation of a registered class. -/
def instantiate (c : RegisteredModel) (h : Hparams) : ModelInstance :=
  ⟨c.name, h, c.initWeights h, true⟩

/-- `model.load_state_dict(sd)`: replaces the weights. -/
def load_state_dict (m : ModelInstance) (sd : StateDict) : ModelInstance :=
  { m with state_dict := sd }

/-- `model.eval()`: switches to inference mode. -/
def eval_mode (m : ModelInstance) : ModelInstance :=
  { m with training := false }

/-- `model_fn` (main.py lines 86-93): resolve the stored `model_module` name
against the `boda.model` registry (`getattr`; `none` models the
`AttributeError` on an unknown name), instantiate it with the stored
`model_hparams`, load the stored `model_state_dict`, switch to eval mode. -/
def model_fn (registry : List (String × RegisteredModel)) (checkpoint : SaveDict) :
    Option ModelInstance :=
  (registry.lookup checkpoint.model_module).map fun mm =>
    eval_mode (load_state_dict (instantiate mm checkpoint.model_hparams)
      checkpoint.model_state_dict)

/-! ### Artifact unpacking (main.py `unpack_artifact`, lines 71-84) -/

/-- The filesystem facts `unpack_artifact` consults. -/
structure FileSystem where
  isfile : String → Bool
  isdir : String → Bool
  is_tarfile : String → Bool

/-- Terminal outcome of `unpack_artifact`. -/
inductive UnpackOutcome where
  | assertionError (msg : String)
  | unpacked (tar_model : String)
  | unboundLocalError
deriving DecidableEq

/-- Result of `unpack_artifact`: the `gsutil` subprocess invocations it made,
and its terminal outcome. -/
structure UnpackResult where
  gsutil_calls : List (List String)
  outcome : UnpackOutcome
deriving DecidableEq

/-- The shared tail of `unpack_artifact`:
`assert tarfile.is_tarfile(tar_model), f"Expected a tarfile at {tar_model}. Not found."`
followed by `shutil.unpack_archive(tar_model)`. -/
def assert_and_unpack (fs : FileSystem) (tar_model : String) : UnpackOutcome :=
  if fs.is_tarfile tar_model then .unpacked tar_model
  else .assertionError ("Expected a tarfile at " ++ tar_model ++ ". Not found.")

/-- `unpack_artifact(artifact_path, download_path='./')`.  If
`'gs' in artifact_path` it downloads via `gsutil` and resolves `tar_model`
from `download_path` (unbound — hence `UnboundLocalError` at the assert — when
`download_path` is neither a directory nor a file); otherwise it asserts the
local file exists.  Both paths then assert the tarfile check and extract. -/
def unpack_artifact (fs : FileSystem) (artifact_path download_path : String) :
    UnpackResult :=
  if pyIn "gs" artifact_path then
    let calls := [["gsutil", "cp", artifact_path, download_path]]
    if fs.isdir download_path then
      ⟨calls, assert_and_unpack fs
        (os_path_join download_path (os_path_basename artifact_path))⟩
    else if fs.isfile download_path then
      ⟨calls, assert_and_unpack fs download_path⟩
    else
      ⟨calls, .unboundLocalError⟩
  else
    if fs.isfile artifact_path then
      ⟨[], assert_and_unpack fs artifact_path⟩
    else
      ⟨[], .assertionError "Could not find file at expected path."⟩

/-- Whether an outcome is an assertion failure. -/
def isAssertionError : UnpackOutcome → Bool
  | .assertionError _ => true
  | _ => false

/-- A filesystem on which every path is an existing file, directory, and
valid tarfile (used to evaluate concrete branches). -/
def allFS : FileSystem := ⟨fun _ => true, fun _ => true, fun _ => true⟩

/-! ### Theorems -/

/-- For a positive divisor, Python floor division agrees with the
mathematical floor of the exact rational quotient. -/
theorem fdiv_eq_floor_div (a s : ℤ) (hs : 0 < s) :
    a.fdiv s = ⌊(a : ℚ) / (s : ℚ)⌋ := by
  obtain ⟨n, rfl⟩ := Int.eq_ofNat_of_zero_le hs.le
  rw [Int.fdiv_eq_ediv _ hs.le]
  rw [show (((n : ℤ) : ℚ)) = ((n : ℕ) : ℚ) by push_cast; ring]
  exact (Rat.floor_intCast_div_natCast a n).symm

/-- Claim C4: for every `L_in`, `kernel_size`, `padding`, `dilation` and every
`stride > 0`, `conv1D_OutDim` equals
`floor((L_in + 2*padding - dilation*(kernel_size-1) - 1) / stride) + 1`, is
monotonically non-decreasing in `L_in`, and `conv1D_OutDim 600 6 3 0 1 = 199`. -/
theorem C4_conv1D_OutDim_formula (L L' k s p d : ℤ) (hs : 0 < s) (hL : L ≤ L') :
    conv1D_OutDim L k s p d
        = ⌊((L : ℚ) + 2 * p - d * (k - 1) - 1) / (s : ℚ)⌋ + 1
      ∧ conv1D_OutDim L k s p d ≤ conv1D_OutDim L' k s p d
      ∧ conv1D_OutDim 600 6 3 0 1 = 199 := by
  refine ⟨?_, ?_, by decide⟩
  · unfold conv1D_OutDim
    rw [fdiv_eq_floor_div _ _ hs]
    rw [show ((L + 2 * p - d * (k - 1) - 1 : ℤ) : ℚ)
        = (L : ℚ) + 2 * p - d * (k - 1) - 1 by push_cast; ring]
  · unfold conv1D_OutDim
    rw [Int.fdiv_eq_ediv _ hs.le, Int.fdiv_eq_ediv _ hs.le]
    have := Int.ediv_le_ediv hs
      (show L + 2 * p - d * (k - 1) - 1 ≤ L' + 2 * p - d * (k - 1) - 1 by omega)
    omega

/-- Witness for C4 at concrete inputs. -/
theorem C4_witness :
    (0 : ℤ) < 3 ∧ (10 : ℤ) ≤ 20
      ∧ (conv1D_OutDim 10 6 3 0 1
            = ⌊((10 : ℚ) + 2 * 0 - 1 * (6 - 1) - 1) / (3 : ℚ)⌋ + 1
          ∧ conv1D_OutDim 10 6 3 0 1 ≤ conv1D_OutDim 20 6 3 0 1
          ∧ conv1D_OutDim 600 6 3 0 1 = 199) :=
  ⟨by decide, by decide, C4_conv1D_OutDim_formula 10 20 6 3 0 1 (by decide) (by decide)⟩

/-- Claim C5: the layer-length chain of `__init__` applies the shared
output-length formula at each of the four stages, each stage consuming the
previous stage's output (`seqLen → convLayerLen1 → poolLayerLen1 →
convLayerLen2 → poolLayerLen2`), both pooling stages with padding `0` and
dilation `1`; the first fully-connected layer's in-features equal
`poolLayerLen2 * numChannels2`.  At the source defaults the chain evaluates to
`199 → 98 → 48 → 24` with `240` in-features. -/
theorem C5_layer_chain (q : ModelParams) :
    convLayerLen1 q = conv1D_OutDim q.seqLen q.kernelSize1 q.stride1 q.padding1 q.dilation1
      ∧ poolLayerLen1 q = conv1D_OutDim (convLayerLen1 q) q.poolKernel1 q.poolStride1 0 1
      ∧ convLayerLen2 q = conv1D_OutDim (poolLayerLen1 q) q.kernelSize2 q.stride2 q.padding2 q.dilation2
      ∧ poolLayerLen2 q = conv1D_OutDim (convLayerLen2 q) q.poolKernel2 q.poolStride2 0 1
      ∧ linear1_in_features q = poolLayerLen2 q * q.numChannles2
      ∧ convLayerLen1 defaultModelParams = 199
      ∧ poolLayerLen1 defaultModelParams = 98
      ∧ convLayerLen2 defaultModelParams = 48
      ∧ poolLayerLen2 defaultModelParams = 24
      ∧ linear1_in_features defaultModelParams = 240 :=
  ⟨rfl, rfl, rfl, rfl, rfl, by decide, by decide, by decide, by decide, by decide⟩

/-- Claim C6: `configure_optimizers` supports exactly the strings `"Adam"`
(Adam with betas `(0.9, 0.999)`, eps `1e-8`, configured LR and weight decay)
and `"RMS"` (RMSprop with alpha `0.99`, eps `1e-8`, `centered`, configured LR,
weight decay and momentum); any other string assigns no optimizer. -/
theorem C6_optimizer_selection (q : ModelParams) :
    (q.optimizer = "Adam" →
        configure_optimizers q
          = .ok (.Adam q.LR (9/10) (999/1000) (1/100000000) q.weightDecay))
      ∧ (q.optimizer = "RMS" →
        configure_optimizers q
          = .ok (.RMSprop q.LR (99/100) (1/100000000) q.weightDecay q.momentum true))
      ∧ (q.optimizer ≠ "Adam" → q.optimizer ≠ "RMS" →
        configure_optimizers q = .unboundLocalError) := by
  unfold configure_optimizers
  refine ⟨fun h => ?_, fun h => ?_, fun h1 h2 => ?_⟩
  · rw [if_pos h]
  · rw [if_neg (by rw [h]; decide), if_pos h]
  · rw [if_neg h1, if_neg h2]

/-- The default parameters with the optimizer flag set to `"RMS"`. -/
def rmsParams : ModelParams := { defaultModelParams with optimizer := "RMS" }

/-- Witness for C6 at the source defaults (`LR = 0.0005`,
`weightDecay = 1e-8`, `momentum = 0.9`). -/
theorem C6_witness :
    configure_optimizers defaultModelParams
        = .ok (.Adam (1/2000) (9/10) (999/1000) (1/100000000) (1/100000000))
      ∧ configure_optimizers rmsParams
        = .ok (.RMSprop (1/2000) (99/100) (1/100000000) (1/100000000) (9/10) true) :=
  ⟨(C6_optimizer_selection defaultModelParams).1 rfl,
   (C6_optimizer_selection rmsParams).2.1 rfl⟩

/-- The default parameters with an unsupported optimizer string. -/
def sgdParams : ModelParams := { defaultModelParams with optimizer := "SGD" }

/-- Claim C7 (code bug): for the unsupported optimizer string `"SGD"` the
source falls through both branches and reaches `return optimizer` with the
local unbound, raising `UnboundLocalError` — not the explicit
unsupported-optimizer configuration error the claim requires. -/
theorem C7_unsupported_optimizer_falls_through :
    configure_optimizers sgdParams = .unboundLocalError := by
  decide

/-- Claim C8 (code bug): `training_step` and `validation_step` both compute
the mean squared error of prediction against target, but `test_step` reads
the never-assigned attribute `self.loss` and raises `AttributeError` instead
of computing any loss; evaluated here on the batch `([1, 3], [0, 1])` with the
identity forward, where the MSE is `5/2`. -/
theorem C8_test_step_loss_undefined :
    (∀ f b, training_step f b = validation_step f b)
      ∧ training_step id ([1, 3], [0, 1]) = .loss (5/2)
      ∧ validation_step id ([1, 3], [0, 1]) = .loss (5/2)
      ∧ test_step id ([1, 3], [0, 1]) = .attributeError "loss" := by
  refine ⟨fun _ _ => rfl, ?_, ?_, rfl⟩ <;>
    · simp only [training_step, validation_step, mse_loss, id_eq, List.zip_cons_cons,
        List.zip_nil_right, List.map_cons, List.map_nil, List.sum_cons, List.sum_nil,
        List.length_cons, List.length_nil]
      norm_num

/-- Claim C1 fails on the code: with the model constructed at the defaults
(`seqLen = 600` stored in the instance `__dict__`) and a graph hyperparameter
record also declaring `seqLen` (as `999`), the value observed on the composed
object is the model's `600`, not the graph's `999`: instance attributes shadow
the graph hyperparameters, which only become class attributes of the new
`BODA_module` type. -/
theorem C1_counterexample :
    getattro (composeModule (MPRAregressionModel_init defaultModelParams)
        MPRA_class exGraphClass exGraphHparams) "seqLen" = some (.int 600)
      ∧ getattro (composeModule (MPRAregressionModel_init defaultModelParams)
        MPRA_class exGraphClass exGraphHparams) "seqLen" ≠ some (.int 999) :=
  ⟨rfl, by decide⟩

/-- Claim C1 (amended): the composer writes the graph hyperparameters into the
new class's `__dict__` while leaving the instance `__dict__` untouched, so for
a colliding name set on the instance during model construction the observed
value is the model's; a graph hyperparameter value is observed exactly when
the name is absent from the instance `__dict__`. -/
theorem C1_amended_instance_shadows_graph (model : PyObj) (mc gc : PyClass)
    (gh : List (String × PyVal)) (n : String) (v : PyVal) :
    (model.dict.lookup n = some v →
        getattro (composeModule model mc gc gh) n = some v)
      ∧ (model.dict.lookup n = none → gh.lookup n = some v →
        getattro (composeModule model mc gc gh) n = some v) := by
  constructor
  · intro h
    simp only [getattro, composeModule, h]
  · intro h hg
    simp only [getattro, composeModule, h, lookupClassDicts, hg]

/-- Witness for amended C1: on the composed object at the defaults, the
colliding `seqLen` reads as the model's `600`, while the graph-only name
`epochs` reads as the graph's `5`. -/
theorem C1_amended_witness :
    getattro (composeModule (MPRAregressionModel_init defaultModelParams)
        MPRA_class exGraphClass exGraphHparams) "seqLen" = some (.int 600)
      ∧ getattro (composeModule (MPRAregressionModel_init defaultModelParams)
        MPRA_class exGraphClass exGraphHparams) "epochs" = some (.int 5) :=
  ⟨(C1_amended_instance_shadows_graph (MPRAregressionModel_init defaultModelParams)
      MPRA_class exGraphClass exGraphHparams "seqLen" (.int 600)).1 (by decide),
   (C1_amended_instance_shadows_graph (MPRAregressionModel_init defaultModelParams)
      MPRA_class exGraphClass exGraphHparams "epochs" (.int 5)).2 (by decide) (by decide)⟩

/-- Claim C2: composing mutates only the type of the existing instance — every
attribute set on the instance during model construction is still observed with
its original value afterwards — and composing with two different graph classes
yields two distinct composed types, each carrying that graph class's declared
hyperparameters as the new class's own attribute dictionary. -/
theorem C2_composer_augments_instance (model : PyObj) (mc g1 g2 : PyClass)
    (h1 h2 : List (String × PyVal)) (hg : g1 ≠ g2) :
    (∀ n v, model.dict.lookup n = some v →
        getattro (composeModule model mc g1 h1) n = some v)
      ∧ (composeModule model mc g1 h1).dict = model.dict
      ∧ (composeModule model mc g1 h1).mro ≠ (composeModule model mc g2 h2).mro
      ∧ (composeModule model mc g1 h1).mro.map PyClass.dict
          = h1 :: mc.dict :: g1.dict :: []
      ∧ (composeModule model mc g2 h2).mro.map PyClass.dict
          = h2 :: mc.dict :: g2.dict :: [] := by
  refine ⟨fun n v h => ?_, rfl, fun heq => ?_, rfl, rfl⟩
  · simp only [getattro, composeModule, h]
  · simp only [composeModule, List.cons.injEq, and_true] at heq
    exact hg heq.2.2

/-- Witness for C2: the default-constructed model composed with two distinct
graph classes keeps `seqLen = 600` and the composed MROs differ. -/
theorem C2_witness :
    getattro (composeModule (MPRAregressionModel_init defaultModelParams)
        MPRA_class exGraphClass exGraphHparams) "seqLen" = some (.int 600)
      ∧ (composeModule (MPRAregressionModel_init defaultModelParams)
            MPRA_class exGraphClass exGraphHparams).mro
          ≠ (composeModule (MPRAregressionModel_init defaultModelParams)
            MPRA_class exGraphClassB []).mro :=
  ⟨(C2_composer_augments_instance (MPRAregressionModel_init defaultModelParams)
      MPRA_class exGraphClass exGraphClassB exGraphHparams [] (by decide)).1
      "seqLen" (.int 600) (by decide),
   (C2_composer_augments_instance (MPRAregressionModel_init defaultModelParams)
      MPRA_class exGraphClass exGraphClassB exGraphHparams [] (by decide)).2.2.1⟩

/-- Claim C3: saving with `_save_model` and restoring with `model_fn`
round-trips.  If the `boda.model` registry resolves the stored module name to
a class bearing that name, the restored model is that class instantiated with
the stored hyperparameters, its loaded weights equal the stored state dict,
and it is in eval mode; moreover restoration reads nothing from the
checkpoint beyond the module name, the hyperparameters, and the weight blob. -/
theorem C3_save_restore_roundtrip (registry : List (String × RegisteredModel))
    (dataM modelM graphM : ModuleClass) (st : StateDict) (args : Args)
    (ts : String) (tag : ℤ) (mm : RegisteredModel)
    (hreg : registry.lookup modelM.name = some mm)
    (hname : mm.name = modelM.name) :
    (model_fn registry (save_model_dict dataM modelM graphM st args ts tag)
        = some ⟨modelM.name, modelM.process_args args, st, false⟩)
      ∧ (save_model_dict dataM modelM graphM st args ts tag).model_module = modelM.name
      ∧ (save_model_dict dataM modelM graphM st args ts tag).model_hparams
          = modelM.process_args args
      ∧ (save_model_dict dataM modelM graphM st args ts tag).model_state_dict = st
      ∧ (∀ cp cp' : SaveDict, cp.model_module = cp'.model_module →
          cp.model_hparams = cp'.model_hparams →
          cp.model_state_dict = cp'.model_state_dict →
          model_fn registry cp = model_fn registry cp') := by
  refine ⟨?_, rfl, rfl, rfl, fun cp cp' e1 e2 e3 => ?_⟩
  · simp only [model_fn, save_model_dict, hreg, Option.map_some', instantiate,
      load_state_dict, eval_mode, hname]
  · simp only [model_fn, e1, e2, e3]

/-- Example objects for the C3 witness: a registry holding the model class
under its own name, and the three module classes of a run. -/
def exRegisteredModel : RegisteredModel :=
  ⟨"MPRAregressionModel", fun _ => [("conv.weight", [0])]⟩

/-- The example `boda.model` registry. -/
def exRegistry : List (String × RegisteredModel) :=
  [("MPRAregressionModel", exRegisteredModel)]

/-- The example model module class with its extracted hyperparameters. -/
def exModelModule : ModuleClass :=
  ⟨"MPRAregressionModel", fun _ => [("seqLen", .int 600)]⟩

/-- The example data module class. -/
def exDataModule : ModuleClass := ⟨"MPRA_DataModule", fun _ => []⟩

/-- The example graph module class. -/
def exGraphModule : ModuleClass := ⟨"CNNBasicTraining", fun _ => []⟩

/-- The example trained weights. -/
def exState : StateDict := [("conv.weight", [1, 2])]

/-- Witness for C3: a concrete save/restore round-trip. -/
theorem C3_witness :
    model_fn exRegistry
        (save_model_dict exDataModule exModelModule exGraphModule exState []
          "20210101_000000" 123456)
      = some ⟨"MPRAregressionModel", [("seqLen", .int 600)], exState, false⟩ :=
  (C3_save_restore_roundtrip exRegistry exDataModule exModelModule exGraphModule
    exState [] "20210101_000000" 123456 exRegisteredModel rfl rfl).1

/-- Claim C9: on the local branch (path does not contain `'gs'`),
`unpack_artifact` fails with an assertion error exactly when the file is
missing or is not a valid tar archive — with the source's descriptive
messages — and extracts the archive when both checks pass. -/
theorem C9_unpack_local_asserts (fs : FileSystem) (path dp : String)
    (h : pyIn "gs" path = false) :
    (isAssertionError (unpack_artifact fs path dp).outcome
        = (!fs.isfile path || !fs.is_tarfile path))
      ∧ (fs.isfile path = false →
        (unpack_artifact fs path dp).outcome
          = .assertionError "Could not find file at expected path.")
      ∧ (fs.isfile path = true → fs.is_tarfile path = false →
        (unpack_artifact fs path dp).outcome
          = .assertionError ("Expected a tarfile at " ++ path ++ ". Not found."))
      ∧ (fs.isfile path = true → fs.is_tarfile path = true →
        (unpack_artifact fs path dp).outcome = .unpacked path) := by
  cases hf : fs.isfile path <;> cases ht : fs.is_tarfile path <;>
    simp_all [unpack_artifact, assert_and_unpack, isAssertionError, h, hf, ht]

/-- Witness for C9: a local tar file at `"./checkpoint.tar"` on a filesystem
where every path exists and is a valid archive gets extracted. -/
theorem C9_witness :
    pyIn "gs" "./checkpoint.tar" = false
      ∧ (unpack_artifact allFS "./checkpoint.tar" "./").outcome
          = .unpacked "./checkpoint.tar" :=
  ⟨by decide,
   (C9_unpack_local_asserts allFS "./checkpoint.tar" "./" (by decide)).2.2.2 rfl rfl⟩

/-- Claim C10: `unpack_artifact` takes the `gsutil` download branch exactly
when the path contains `'gs'` anywhere — so the purely local path
`./logs/model.tar.gz` is sent to the cloud branch — whereas `_save_model`
uploads exactly when the destination contains `'gs://'`. -/
theorem C10_cloud_branch_substring :
    (∀ fs path dp, (unpack_artifact fs path dp).gsutil_calls.isEmpty
        = !(pyIn "gs" path))
      ∧ (∀ ap tmp fn, isGsutilUpload (save_model_deposit ap tmp fn)
        = pyIn "gs://" ap)
      ∧ pyIn "gs" "./logs/model.tar.gz" = true
      ∧ pyIn "gs://" "./logs/model.tar.gz" = false
      ∧ (unpack_artifact allFS "./logs/model.tar.gz" "./").gsutil_calls
          = [["gsutil", "cp", "./logs/model.tar.gz", "./"]]
      ∧ isGsutilUpload (save_model_deposit "./logs/" "/tmp/output"
          "model_artifacts__20210101_000000__123456.tar.gz") = false := by
  refine ⟨fun fs path dp => ?_, fun ap tmp fn => ?_, by decide, by decide, rfl, by decide⟩
  · unfold unpack_artifact
    cases hx : pyIn "gs" path
    · cases hf : fs.isfile path <;> simp [hf]
    · cases hd : fs.isdir dp <;> cases hf : fs.isfile dp <;> simp [hd, hf]
  · cases hx : pyIn "gs://" ap <;> simp [save_model_deposit, isGsutilUpload, hx]
